import Mathlib

/-!
Shallow embedding of the low-thrust mission-design propagator
(constants.h, dynamics.cpp, propagator.cpp, orbital_elements.cpp,
mission_propagation.cpp, mission_batch.cpp) and proofs about it.
C++ doubles are modelled as real numbers; C++ division by zero does not
occur on the paths the theorems below talk about (every division in the
source is guarded by a threshold test, which the embedding reproduces).
-/

namespace LowThrust

/-- The celestial-body catalog of constants.h (enum class CelestialBody). -/
inductive CelestialBody where
  | MERCURY
  | VENUS
  | EARTH
  | MARS
  | JUPITER
  | SATURN
  | URANUS
  | NEPTUNE
  | PLUTO
  deriving DecidableEq, Repr

/-- constants.h parseBodyName: parse body name from string; the source
comment advertises it as case-insensitive, the body compares against
exactly two spellings of each name and defaults to EARTH. -/
def parseBodyName (name : String) : CelestialBody :=
  if name = "Mercury" ∨ name = "mercury" then .MERCURY
  else if name = "Venus" ∨ name = "venus" then .VENUS
  else if name = "Earth" ∨ name = "earth" then .EARTH
  else if name = "Mars" ∨ name = "mars" then .MARS
  else if name = "Jupiter" ∨ name = "jupiter" then .JUPITER
  else if name = "Saturn" ∨ name = "saturn" then .SATURN
  else if name = "Uranus" ∨ name = "uranus" then .URANUS
  else if name = "Neptune" ∨ name = "neptune" then .NEPTUNE
  else if name = "Pluto" ∨ name = "pluto" then .PLUTO
  else .EARTH

noncomputable section

/-- constants.h: Sun's gravitational parameter (km³/s²). -/
def MU_SUN : ℝ := 1.32712440018e11

/-- constants.h: gravitational acceleration constant (km/s²). -/
def G0 : ℝ := 9.81e-3

/-- The literal 3.14159265358979323846 used throughout orbital_elements.cpp. -/
def PI_C : ℝ := 3.14159265358979323846

/-- A C-style 3-vector of doubles (double[3]). -/
structure Vec3 where
  x : ℝ
  y : ℝ
  z : ℝ

/-- The zero vector, produced by the degenerate-case guards. -/
def Vec3.zero : Vec3 := ⟨0, 0, 0⟩

/-- Componentwise a + b*s, the ubiquitous `r[i] + v[i] * dt` pattern. -/
def Vec3.axpy (s : ℝ) (a b : Vec3) : Vec3 :=
  ⟨a.x + b.x * s, a.y + b.y * s, a.z + b.z * s⟩

/-- sqrt(w[0]*w[0] + w[1]*w[1] + w[2]*w[2]), the source's magnitude formula. -/
def Vec3.mag (w : Vec3) : ℝ :=
  Real.sqrt (w.x * w.x + w.y * w.y + w.z * w.z)

/-- propagator.h struct MissionState: position (km), velocity (km/s),
mass (kg), time (s). -/
structure MissionState where
  r : Vec3
  v : Vec3
  m : ℝ
  t : ℝ

/-- The default MissionState constructor: zero position, zero velocity,
mass 0, time 0. -/
def MissionState.mkDefault : MissionState := ⟨Vec3.zero, Vec3.zero, 0, 0⟩

/-- dynamics.cpp computeGravityAccel: a = -mu * r / |r|^3, zero vector when
|r| < 1e-10. -/
def computeGravityAccel (r : Vec3) (mu : ℝ) : Vec3 :=
  let r_mag := Real.sqrt (r.x * r.x + r.y * r.y + r.z * r.z)
  if r_mag < 1e-10 then
    ⟨0, 0, 0⟩
  else
    let r_cubed := r_mag * r_mag * r_mag
    let factor := -mu / r_cubed
    ⟨factor * r.x, factor * r.y, factor * r.z⟩

/-- dynamics.cpp computeThrustAccel: acceleration of magnitude
(thrust_mN * 1e-6) / m along thrust_direction * v/|v|; zero vector when
thrust_mN < 1e-10, m < 1e-10 or |v| < 1e-10. -/
def computeThrustAccel (v : Vec3) (m thrust_mN : ℝ) (thrust_direction : ℤ) : Vec3 :=
  if thrust_mN < 1e-10 ∨ m < 1e-10 then
    ⟨0, 0, 0⟩
  else
    let v_mag := Real.sqrt (v.x * v.x + v.y * v.y + v.z * v.z)
    if v_mag < 1e-10 then
      ⟨0, 0, 0⟩
    else
      let a_mag := thrust_mN * 1e-6 / m
      let factor := (thrust_direction : ℝ) * a_mag / v_mag
      ⟨factor * v.x, factor * v.y, factor * v.z⟩

/-- dynamics.cpp computeAcceleration: componentwise sum of gravity and
thrust accelerations. -/
def computeAcceleration (state : MissionState) (thrust_mN mu : ℝ)
    (thrust_direction : ℤ) : Vec3 :=
  let a_grav := computeGravityAccel state.r mu
  let a_thrust := computeThrustAccel state.v state.m thrust_mN thrust_direction
  ⟨a_grav.x + a_thrust.x, a_grav.y + a_thrust.y, a_grav.z + a_thrust.z⟩

/-- The mass update shared verbatim by both integrators in propagator.cpp:
when thrust_mN > 1e-10 and isp_s > 1e-10, m += -(thrust_mN*1e-6)/(isp_s*g0) * dt,
clamped at 0; otherwise the mass is left unchanged. -/
def massUpdate (m dt thrust_mN isp_s g0 : ℝ) : ℝ :=
  if thrust_mN > 1e-10 ∧ isp_s > 1e-10 then
    let v_e := isp_s * g0
    let dm_dt := -thrust_mN * 1e-6 / v_e
    let m1 := m + dm_dt * dt
    if m1 < 0 then 0 else m1
  else m

/-- propagator.cpp EulerPropagator::step: one acceleration evaluation at the
current state, v += a*dt, then r += v*dt with the already-updated v, then
t += dt and the mass update. -/
def eulerStep (state : MissionState) (dt thrust_mN isp_s mu g0 : ℝ)
    (thrust_direction : ℤ) : MissionState :=
  let a := computeAcceleration state thrust_mN mu thrust_direction
  let v1 := Vec3.axpy dt state.v a
  let r1 := Vec3.axpy dt state.r v1
  { r := r1
    v := v1
    m := massUpdate state.m dt thrust_mN isp_s g0
    t := state.t + dt }

/-- propagator.cpp RK4Propagator::step: four acceleration evaluations
(k1..k4), Simpson weights [1,2,2,1]/6 applied to the stage accelerations for
the velocity update and to the stage velocities for the position update,
t += dt, and the mass update. The temporary states built for the stage
evaluations carry the incoming mass and a default time of 0, as in the
source (time is not read by the acceleration model). -/
def rk4Step (state : MissionState) (dt thrust_mN isp_s mu g0 : ℝ)
    (thrust_direction : ℤ) : MissionState :=
  let k1 := computeAcceleration state thrust_mN mu thrust_direction
  let v_k1 := state.v
  let r_mid := Vec3.axpy (dt / 2) state.r state.v
  let v_mid := Vec3.axpy (dt / 2) state.v k1
  let k2 := computeAcceleration ⟨r_mid, v_mid, state.m, 0⟩ thrust_mN mu thrust_direction
  let v_k2 := v_mid
  let v_mid2 := Vec3.axpy (dt / 2) state.v k2
  let k3 := computeAcceleration ⟨r_mid, v_mid2, state.m, 0⟩ thrust_mN mu thrust_direction
  let v_k3 := v_mid2
  let r_end := Vec3.axpy (dt * dt / 2) (Vec3.axpy dt state.r state.v) k3
  let v_end := Vec3.axpy dt state.v k3
  let k4 := computeAcceleration ⟨r_end, v_end, state.m, 0⟩ thrust_mN mu thrust_direction
  let v_k4 := v_end
  let kSum : Vec3 := ⟨k1.x + 2 * k2.x + 2 * k3.x + k4.x,
                      k1.y + 2 * k2.y + 2 * k3.y + k4.y,
                      k1.z + 2 * k2.z + 2 * k3.z + k4.z⟩
  let vSum : Vec3 := ⟨v_k1.x + 2 * v_k2.x + 2 * v_k3.x + v_k4.x,
                      v_k1.y + 2 * v_k2.y + 2 * v_k3.y + v_k4.y,
                      v_k1.z + 2 * v_k2.z + 2 * v_k3.z + v_k4.z⟩
  { r := Vec3.axpy (dt / 6) state.r vSum
    v := Vec3.axpy (dt / 6) state.v kSum
    m := massUpdate state.m dt thrust_mN isp_s g0
    t := state.t + dt }

/-- C truncation toward zero, as used by std::fmod. -/
def cTrunc (x : ℝ) : ℤ := if x < 0 then ⌈x⌉ else ⌊x⌋

/-- C std::fmod(x, y) = x - y * trunc(x / y) (for y ≠ 0; the y = 0 case is
never exercised since the solver always passes 2π). -/
def cFmod (x y : ℝ) : ℝ := x - y * (cTrunc (x / y) : ℝ)

/-- The Newton-Raphson iteration of solveKeplersEquation: at most `n` more
iterations starting from estimate E; stops early on a near-zero derivative
or on |E_next - E| < tolerance. -/
def keplerIter (M_norm e tolerance : ℝ) : ℕ → ℝ → ℝ
  | 0, E => E
  | n + 1, E =>
    let sinE := Real.sin E
    let cosE := Real.cos E
    let f := E - e * sinE - M_norm
    let f_prime := 1 - e * cosE
    if |f_prime| < 1e-15 then E
    else
      let E_next := E - f / f_prime
      if |E_next - E| < tolerance then E_next
      else keplerIter M_norm e tolerance n E_next

/-- orbital_elements.cpp solveKeplersEquation: normalizes M into [0, 2π)
(with the source's π literal), returns the normalized M directly when
e < 1e-10, and otherwise runs Newton-Raphson from E₀ = M_norm. -/
def solveKeplersEquation (M e tolerance : ℝ) (max_iterations : ℕ) : ℝ :=
  let M0 := cFmod M (2 * PI_C)
  let M_norm := if M0 < 0 then M0 + 2 * PI_C else M0
  if e < 1e-10 then M_norm
  else keplerIter M_norm e tolerance max_iterations M_norm

/-- orbital_elements.cpp eccentricToTrueAnomaly:
ν = 2·arctan(√((1+e)/(1−e))·tan(E/2)), normalized into [0, 2π) by adding
2π once when negative; returns 0 for e outside [0, 1] and returns E for
e < 1e-10. -/
def eccentricToTrueAnomaly (E e : ℝ) : ℝ :=
  if e < 0 ∨ e > 1 then 0
  else if e < 1e-10 then E
  else
    let half_E := E / 2
    let tan_half_E := Real.tan half_E
    let factor := Real.sqrt ((1 + e) / (1 - e))
    let tan_half_nu := factor * tan_half_E
    let nu := 2 * Real.arctan tan_half_nu
    if nu < 0 then nu + 2 * PI_C else nu

/-- C std::atan2(y, x) in exact arithmetic. -/
def cAtan2 (y x : ℝ) : ℝ :=
  if x > 0 then Real.arctan (y / x)
  else if x < 0 ∧ 0 ≤ y then Real.arctan (y / x) + Real.pi
  else if x < 0 then Real.arctan (y / x) - Real.pi
  else if 0 < y then Real.pi / 2
  else if y < 0 then -(Real.pi / 2)
  else 0

/-- orbital_elements.h struct OrbitalElements. `Esp` is the field the source
calls E (specific orbital energy); renamed to avoid clashing with the
eccentric-anomaly variable E. -/
structure OrbitalElements where
  a : ℝ
  e : ℝ
  i : ℝ
  Omega : ℝ
  omega : ℝ
  nu : ℝ
  r_p : ℝ
  r_a : ℝ
  h : ℝ
  Esp : ℝ

/-- orbital_elements.cpp computeOrbitalElements: classical elements from a
Cartesian state, following the source's steps 1–9 with its clamps and
degenerate-case guards. -/
def computeOrbitalElements (r v : Vec3) (mu : ℝ) : OrbitalElements :=
  let h_vec : Vec3 := ⟨r.y * v.z - r.z * v.y,
                       r.z * v.x - r.x * v.z,
                       r.x * v.y - r.y * v.x⟩
  let h_mag := Real.sqrt (h_vec.x * h_vec.x + h_vec.y * h_vec.y + h_vec.z * h_vec.z)
  let r_mag := Real.sqrt (r.x * r.x + r.y * r.y + r.z * r.z)
  let v_mag_sq := v.x * v.x + v.y * v.y + v.z * v.z
  let Esp := v_mag_sq / 2 - mu / r_mag
  let a := if |Esp| > 1e-15 then -mu / (2 * Esp) else 1e10
  let e := if a > 0 then
      let e_sq := 1 - (h_mag * h_mag) / (mu * a)
      Real.sqrt (if e_sq < 0 then 0 else e_sq)
    else 2
  let r_p := a * (1 - e)
  let r_a := a * (1 + e)
  let i := if h_mag > 1e-10 then
      let cos_i := h_vec.z / h_mag
      Real.arccos (if cos_i > 1 then 1 else if cos_i < -1 then -1 else cos_i)
    else 0
  let Omega0 := cAtan2 (-h_vec.x) h_vec.y
  let Omega := if Omega0 < 0 then Omega0 + 2 * PI_C else Omega0
  let vh : Vec3 := ⟨v.y * h_vec.z - v.z * h_vec.y,
                    v.z * h_vec.x - v.x * h_vec.z,
                    v.x * h_vec.y - v.y * h_vec.x⟩
  let e_vec : Vec3 := ⟨vh.x / mu - r.x / r_mag,
                       vh.y / mu - r.y / r_mag,
                       vh.z / mu - r.z / r_mag⟩
  let sin_i := Real.sin i
  let omega0 := if |sin_i| > 1e-10 then
      cAtan2 (e_vec.z / sin_i) (e_vec.x * Real.cos Omega + e_vec.y * Real.sin Omega)
    else 0
  let omega := if omega0 < 0 then omega0 + 2 * PI_C else omega0
  let nu := if e > 1e-10 then
      let cos_nu0 := (h_mag * h_mag / (mu * r_mag) - 1) / e
      let cos_nu := if cos_nu0 > 1 then 1 else if cos_nu0 < -1 then -1 else cos_nu0
      let r_dot_v := r.x * v.x + r.y * v.y + r.z * v.z
      let nu0 := Real.arccos cos_nu
      if r_dot_v < 0 then 2 * PI_C - nu0 else nu0
    else 0
  { a := a, e := e, i := i, Omega := Omega, omega := omega, nu := nu,
    r_p := r_p, r_a := r_a, h := h_mag, Esp := Esp }

/-- propagator.h struct SpacecraftConfig (numeric fields). -/
structure SpacecraftConfig where
  thrust_mN : ℝ
  isp_s : ℝ
  initial_mass_kg : ℝ

/-- propagator.h struct MissionConfig (the fields the propagation loop
reads; body selection and output filename only feed I/O and radius lookup,
which the loop receives as r_departure / r_arrival). -/
structure MissionConfig where
  spacecraft : SpacecraftConfig
  integrator : String
  timestep_s : ℝ
  max_flight_time_s : ℝ
  coast_threshold : ℝ

/-- mission_propagation.h struct PropagationResult. -/
structure PropagationResult where
  final_state : MissionState
  total_delta_v : ℝ
  coast_step : ℤ
  trajectory_history : List MissionState

/-- The default-constructed PropagationResult: default MissionState,
total_delta_v 0, coast_step -1, empty history. -/
def PropagationResult.mkDefault : PropagationResult :=
  ⟨MissionState.mkDefault, 0, -1, []⟩

/-- The polymorphic integrator dispatch of propagateMission: RK4 when
config.integrator == "rk4", Euler otherwise; both are called with the
config's timestep, thrust, Isp, MU_SUN, G0 and the default prograde
thrust direction. -/
def integratorStep (config : MissionConfig) (s : MissionState) : MissionState :=
  if config.integrator = "rk4" then
    rk4Step s config.timestep_s config.spacecraft.thrust_mN config.spacecraft.isp_s
      MU_SUN G0 1
  else
    eulerStep s config.timestep_s config.spacecraft.thrust_mN config.spacecraft.isp_s
      MU_SUN G0 1

/-- The locals of the propagation loop of mission_propagation.cpp's
propagateMission: the evolving state, the step counter, the accumulated
delta-V, the coast_step flag and result.trajectory_history. -/
structure LoopState where
  state : MissionState
  step : ℤ
  total_delta_v : ℝ
  coast_step : ℤ
  history : List MissionState

/-- The delta-V bookkeeping of the loop: when thrust_mN > 1e-10,
total_delta_v += (thrust_mN * 1e-6 / m) * timestep. -/
def deltaVUpdate (config : MissionConfig) (m total_delta_v : ℝ) : ℝ :=
  if config.spacecraft.thrust_mN > 1e-10 then
    total_delta_v + (config.spacecraft.thrust_mN * 1e-6 / m) * config.timestep_s
  else total_delta_v

/-- Outcome of one iteration of the propagation loop body: either a break
with the finished result, or the loop state at the next iteration's head. -/
inductive LoopOut where
  | brk (res : PropagationResult)
  | cont (ls : LoopState)

/-- One iteration of the propagation loop body of propagateMission (the
while condition already checked): compute elements, record the state into
the history, set coast_step on the first apoapsis crossing and break, break
on mass < 100, otherwise accumulate delta-V and take one integrator step. -/
def loopIter (config : MissionConfig) (r_arrival : ℝ) (ls : LoopState) : LoopOut :=
  let elements := computeOrbitalElements ls.state.r ls.state.v MU_SUN
  let history1 := ls.history ++ [ls.state]
  let coast_step1 :=
    if elements.r_a ≥ config.coast_threshold * r_arrival ∧ ls.coast_step < 0 then
      ls.step
    else ls.coast_step
  if coast_step1 ≥ 0 then
    .brk ⟨ls.state, ls.total_delta_v, coast_step1, history1⟩
  else if ls.state.m < 100 then
    .brk ⟨ls.state, ls.total_delta_v, coast_step1, history1⟩
  else
    .cont ⟨integratorStep config ls.state, ls.step + 1,
           deltaVUpdate config ls.state.m ls.total_delta_v, coast_step1, history1⟩

/-- The propagation loop, with an explicit iteration budget. Both possible
integrators advance t by exactly timestep_s per iteration, so for a
positive timestep the budget chosen by propagateMission is never exhausted;
the budget-exhausted fallback returns the same result as the natural
while-exit (the default-constructed result plus the recorded history). -/
def propLoop (config : MissionConfig) (r_arrival : ℝ) :
    ℕ → LoopState → PropagationResult
  | 0, ls => ⟨MissionState.mkDefault, 0, -1, ls.history⟩
  | fuel + 1, ls =>
    if ls.state.t < config.max_flight_time_s then
      match loopIter config r_arrival ls with
      | .brk res => res
      | .cont ls1 => propLoop config r_arrival fuel ls1
    else ⟨MissionState.mkDefault, 0, -1, ls.history⟩

/-- Iteration budget for the loop: enough for every run with a positive
timestep, since the state's time after n iterations is n * timestep_s. -/
def propagateFuel (config : MissionConfig) : ℕ :=
  ⌈config.max_flight_time_s / config.timestep_s⌉₊ + 1

/-- The initial state of a mission: circular orbit at the departure radius,
v_circ = √(MU_SUN / r_departure), full initial mass, time 0. -/
def initialMissionState (config : MissionConfig) (r_departure : ℝ) : MissionState :=
  let v_circ := Real.sqrt (MU_SUN / r_departure)
  ⟨⟨r_departure, 0, 0⟩, ⟨0, v_circ, 0⟩, config.spacecraft.initial_mass_kg, 0⟩

/-- mission_propagation.cpp propagateMission (the save_trajectory CSV output
has no effect on the returned result and is omitted): initialize a circular
orbit at r_departure, then run the propagation loop. -/
def propagateMission (config : MissionConfig) (r_departure r_arrival : ℝ) :
    PropagationResult :=
  propLoop config r_arrival (propagateFuel config)
    ⟨initialMissionState config r_departure, 0, 0, -1, []⟩

/-- comparison.h struct MissionResult (numeric outcome fields; the name
strings and the derived metrics filled in later by computeMetrics are not
touched by the batch runners' propagation). -/
structure MissionResult where
  flight_time_days : ℝ
  total_delta_v_km_s : ℝ
  propellant_consumed_kg : ℝ
  final_mass_kg : ℝ
  initial_mass_kg : ℝ
  final_apoapsis_km : ℝ
  final_periapsis_km : ℝ
  final_eccentricity : ℝ
  final_semi_major_axis_km : ℝ

/-- The MissionResult constructor: every numeric field 0. -/
def MissionResult.mkDefault : MissionResult := ⟨0, 0, 0, 0, 0, 0, 0, 0, 0⟩

/-- The self-contained propagation loop of the duplicated
MissionBatchRunner::propagateMission variant (part of the older
mission_batch translation unit): same state evolution as the shared
engine, but the result fields are filled in directly at the break; on the
fuel-depletion break final_apoapsis_km is set to 0 and the periapsis /
eccentricity / semi-major-axis fields keep their constructed zeros. -/
def batchLoopA (config : MissionConfig) (r_arr : ℝ) (res0 : MissionResult) :
    ℕ → MissionState → ℤ → ℝ → MissionResult
  | 0, _, _, _ => res0
  | fuel + 1, state, step, total_delta_v =>
    if state.t < config.max_flight_time_s then
      let elements := computeOrbitalElements state.r state.v MU_SUN
      if elements.r_a ≥ config.coast_threshold * r_arr then
        { res0 with
          flight_time_days := state.t / 86400
          total_delta_v_km_s := total_delta_v
          final_mass_kg := state.m
          propellant_consumed_kg := config.spacecraft.initial_mass_kg - state.m
          final_apoapsis_km := elements.r_a
          final_periapsis_km := elements.r_p
          final_eccentricity := elements.e
          final_semi_major_axis_km := elements.a }
      else if state.m < 100 then
        { res0 with
          flight_time_days := state.t / 86400
          total_delta_v_km_s := total_delta_v
          final_mass_kg := state.m
          propellant_consumed_kg := config.spacecraft.initial_mass_kg - state.m
          final_apoapsis_km := 0 }
      else
        batchLoopA config r_arr res0 fuel (integratorStep config state) (step + 1)
          (deltaVUpdate config state.m total_delta_v)
    else res0

/-- The duplicated self-contained MissionBatchRunner::propagateMission
variant, after configuration loading: its result starts as a
default-constructed MissionResult with initial_mass_kg filled in, and the
loop runs from the circular departure orbit. -/
def batchPropagateA (config : MissionConfig) (r_dep r_arr : ℝ) : MissionResult :=
  let res0 := { MissionResult.mkDefault with
                initial_mass_kg := config.spacecraft.initial_mass_kg }
  batchLoopA config r_arr res0 (propagateFuel config)
    (initialMissionState config r_dep) 0 0

/-- mission_batch.cpp MissionBatchRunner::propagateMission (the newer
variant), after configuration loading: delegates to the shared
propagateMission engine and then recomputes the orbital elements from the
returned final state. -/
def batchPropagateB (config : MissionConfig) (r_dep r_arr : ℝ) : MissionResult :=
  let prop_result := propagateMission config r_dep r_arr
  let elements := computeOrbitalElements prop_result.final_state.r
    prop_result.final_state.v MU_SUN
  { flight_time_days := prop_result.final_state.t / 86400
    total_delta_v_km_s := prop_result.total_delta_v
    final_mass_kg := prop_result.final_state.m
    propellant_consumed_kg :=
      config.spacecraft.initial_mass_kg - prop_result.final_state.m
    initial_mass_kg := config.spacecraft.initial_mass_kg
    final_apoapsis_km := elements.r_a
    final_periapsis_km := elements.r_p
    final_eccentricity := elements.e
    final_semi_major_axis_km := elements.a }

/-- One fall-through iteration of the propagation loop: record the state,
accumulate delta-V, advance by one integrator step, increment the step
counter (exactly the `cont` branch of loopIter when coast_step stays
negative). -/
def advance (config : MissionConfig) (ls : LoopState) : LoopState :=
  ⟨integratorStep config ls.state, ls.step + 1,
   deltaVUpdate config ls.state.m ls.total_delta_v, ls.coast_step,
   ls.history ++ [ls.state]⟩

/-- The loop-state trace of a mission: the loop's locals at the head of the
n-th iteration, assuming the first n iterations all fell through. -/
def traceLS (config : MissionConfig) (r_departure : ℝ) : ℕ → LoopState
  | 0 => ⟨initialMissionState config r_departure, 0, 0, -1, []⟩
  | n + 1 => advance config (traceLS config r_departure n)

/-- The coast condition tested at each iteration of the loop: the apoapsis
of the elements computed from the current state has reached
coast_threshold * r_arrival. -/
def coastCond (config : MissionConfig) (r_arrival : ℝ) (s : MissionState) : Prop :=
  (computeOrbitalElements s.r s.v MU_SUN).r_a ≥ config.coast_threshold * r_arrival

/-- The first n iterations of the propagation loop all fall through: the
while condition holds and neither the coast break nor the fuel break fires
at any step before n. -/
def runsFreelyTo (config : MissionConfig) (r_departure r_arrival : ℝ) (n : ℕ) : Prop :=
  ∀ k < n,
    (traceLS config r_departure k).state.t < config.max_flight_time_s
    ∧ ¬ coastCond config r_arrival (traceLS config r_departure k).state
    ∧ ¬ (traceLS config r_departure k).state.m < 100

/-- The coast break is the first break of the loop and fires at step n. -/
def coastFiresAt (config : MissionConfig) (r_departure r_arrival : ℝ) (n : ℕ) : Prop :=
  runsFreelyTo config r_departure r_arrival n
  ∧ (traceLS config r_departure n).state.t < config.max_flight_time_s
  ∧ coastCond config r_arrival (traceLS config r_departure n).state

/-- The fuel-depletion break is the first break of the loop and fires at
step n (the coast check, made first at step n, does not fire there). -/
def fuelFiresAt (config : MissionConfig) (r_departure r_arrival : ℝ) (n : ℕ) : Prop :=
  runsFreelyTo config r_departure r_arrival n
  ∧ (traceLS config r_departure n).state.t < config.max_flight_time_s
  ∧ ¬ coastCond config r_arrival (traceLS config r_departure n).state
  ∧ (traceLS config r_departure n).state.m < 100

/-- The while condition fails at the head of iteration n with no break
having fired earlier: the time-exceeded fallthrough exit. -/
def timeExceededAt (config : MissionConfig) (r_departure r_arrival : ℝ) (n : ℕ) : Prop :=
  runsFreelyTo config r_departure r_arrival n
  ∧ ¬ (traceLS config r_departure n).state.t < config.max_flight_time_s

end

/-! ## Helper lemmas -/

theorem massUpdate_nonneg (m dt thrust_mN isp_s g0 : ℝ) (h : 0 ≤ m) :
    0 ≤ massUpdate m dt thrust_mN isp_s g0 := by
  unfold massUpdate
  split
  · dsimp only
    split
    · exact le_refl 0
    · linarith [le_of_not_lt (by assumption)]
  · exact h

theorem massUpdate_coast (m dt thrust_mN isp_s g0 : ℝ)
    (h : thrust_mN ≤ 1e-10 ∨ isp_s ≤ 1e-10) :
    massUpdate m dt thrust_mN isp_s g0 = m := by
  unfold massUpdate
  rw [if_neg]
  rintro ⟨h1, h2⟩
  rcases h with h3 | h3 <;> linarith

theorem rk4Step_m (s : MissionState) (dt thrust_mN isp_s mu g0 : ℝ) (dir : ℤ) :
    (rk4Step s dt thrust_mN isp_s mu g0 dir).m = massUpdate s.m dt thrust_mN isp_s g0 := rfl

theorem eulerStep_m (s : MissionState) (dt thrust_mN isp_s mu g0 : ℝ) (dir : ℤ) :
    (eulerStep s dt thrust_mN isp_s mu g0 dir).m = massUpdate s.m dt thrust_mN isp_s g0 := rfl

theorem rk4Step_t (s : MissionState) (dt thrust_mN isp_s mu g0 : ℝ) (dir : ℤ) :
    (rk4Step s dt thrust_mN isp_s mu g0 dir).t = s.t + dt := rfl

theorem eulerStep_t (s : MissionState) (dt thrust_mN isp_s mu g0 : ℝ) (dir : ℤ) :
    (eulerStep s dt thrust_mN isp_s mu g0 dir).t = s.t + dt := rfl

/-! ## C4: the Euler integrator is semi-implicit -/

/-- C4: EulerPropagator::step evaluates the acceleration once at the current
state, updates velocity first (v' = v + a·dt), and then updates position
with the already-updated velocity (r' = r + v'·dt componentwise), which
differs from pure forward Euler by exactly a·dt² in each component. -/
theorem eulerStep_semi_implicit (s : MissionState) (dt thrust_mN isp_s mu g0 : ℝ)
    (dir : ℤ) :
    (eulerStep s dt thrust_mN isp_s mu g0 dir).v.x
        = s.v.x + (computeAcceleration s thrust_mN mu dir).x * dt
    ∧ (eulerStep s dt thrust_mN isp_s mu g0 dir).v.y
        = s.v.y + (computeAcceleration s thrust_mN mu dir).y * dt
    ∧ (eulerStep s dt thrust_mN isp_s mu g0 dir).v.z
        = s.v.z + (computeAcceleration s thrust_mN mu dir).z * dt
    ∧ (eulerStep s dt thrust_mN isp_s mu g0 dir).r.x
        = s.r.x + (eulerStep s dt thrust_mN isp_s mu g0 dir).v.x * dt
    ∧ (eulerStep s dt thrust_mN isp_s mu g0 dir).r.y
        = s.r.y + (eulerStep s dt thrust_mN isp_s mu g0 dir).v.y * dt
    ∧ (eulerStep s dt thrust_mN isp_s mu g0 dir).r.z
        = s.r.z + (eulerStep s dt thrust_mN isp_s mu g0 dir).v.z * dt
    ∧ (eulerStep s dt thrust_mN isp_s mu g0 dir).r.x
        = s.r.x + s.v.x * dt + (computeAcceleration s thrust_mN mu dir).x * (dt * dt)
    ∧ (eulerStep s dt thrust_mN isp_s mu g0 dir).r.y
        = s.r.y + s.v.y * dt + (computeAcceleration s thrust_mN mu dir).y * (dt * dt)
    ∧ (eulerStep s dt thrust_mN isp_s mu g0 dir).r.z
        = s.r.z + s.v.z * dt + (computeAcceleration s thrust_mN mu dir).z * (dt * dt) := by
  unfold eulerStep Vec3.axpy
  dsimp only
  refine ⟨rfl, rfl, rfl, rfl, rfl, rfl, by ring, by ring, by ring⟩

/-! ## C5: integrator steps preserve the state invariants -/

/-- C5: both RK4Propagator::step and EulerPropagator::step keep the mass
non-negative (the mass update is clamped at 0, and a thrust or Isp at or
below 1e-10 leaves it unchanged), set t' = t + dt, and for dt ≥ 0 never
decrease the elapsed time. -/
theorem step_preserves_invariants (s : MissionState) (dt thrust_mN isp_s mu g0 : ℝ)
    (dir : ℤ) (hm : 0 ≤ s.m) (hdt : 0 ≤ dt) :
    0 ≤ (rk4Step s dt thrust_mN isp_s mu g0 dir).m
    ∧ 0 ≤ (eulerStep s dt thrust_mN isp_s mu g0 dir).m
    ∧ (thrust_mN ≤ 1e-10 ∨ isp_s ≤ 1e-10 →
        (rk4Step s dt thrust_mN isp_s mu g0 dir).m = s.m
        ∧ (eulerStep s dt thrust_mN isp_s mu g0 dir).m = s.m)
    ∧ (rk4Step s dt thrust_mN isp_s mu g0 dir).t = s.t + dt
    ∧ (eulerStep s dt thrust_mN isp_s mu g0 dir).t = s.t + dt
    ∧ s.t ≤ (rk4Step s dt thrust_mN isp_s mu g0 dir).t
    ∧ s.t ≤ (eulerStep s dt thrust_mN isp_s mu g0 dir).t := by
  refine ⟨?_, ?_, fun h => ⟨?_, ?_⟩, rfl, rfl, ?_, ?_⟩
  · rw [rk4Step_m]; exact massUpdate_nonneg _ _ _ _ _ hm
  · rw [eulerStep_m]; exact massUpdate_nonneg _ _ _ _ _ hm
  · rw [rk4Step_m]; exact massUpdate_coast _ _ _ _ _ h
  · rw [eulerStep_m]; exact massUpdate_coast _ _ _ _ _ h
  · rw [rk4Step_t]; linarith
  · rw [eulerStep_t]; linarith

/-- Witness for C5 at a concrete state and step. -/
theorem step_preserves_invariants_witness :
    0 ≤ (MissionState.mk ⟨1, 0, 0⟩ ⟨0, 1, 0⟩ 10 0).m
    ∧ (0 : ℝ) ≤ 1
    ∧ 0 ≤ (rk4Step (MissionState.mk ⟨1, 0, 0⟩ ⟨0, 1, 0⟩ 10 0) 1 0 1 1 1 1).m
    ∧ 0 ≤ (eulerStep (MissionState.mk ⟨1, 0, 0⟩ ⟨0, 1, 0⟩ 10 0) 1 0 1 1 1 1).m := by
  have h := step_preserves_invariants (MissionState.mk ⟨1, 0, 0⟩ ⟨0, 1, 0⟩ 10 0)
    1 0 1 1 1 1 (by norm_num) (by norm_num)
  exact ⟨by norm_num, by norm_num, h.1, h.2.1⟩

/-! ## C10: parseBodyName is not case-insensitive -/

/-- C10: parseBodyName recognizes only the capitalized and the all-lowercase
spelling of each catalogued name; other capitalization variants such as
"MARS" or "mArs" fall through to the EARTH default, contradicting the
function's own case-insensitivity comment. -/
theorem parseBodyName_case_sensitive :
    parseBodyName "MARS" = CelestialBody.EARTH
    ∧ parseBodyName "mArs" = CelestialBody.EARTH
    ∧ parseBodyName "Mars" = CelestialBody.MARS
    ∧ parseBodyName "mars" = CelestialBody.MARS := by
  refine ⟨?_, ?_, ?_, ?_⟩ <;> decide

/-! ## C9: acceleration model guards every division -/

theorem Vec3_mag_scale (c : ℝ) (w : Vec3) :
    Vec3.mag ⟨c * w.x, c * w.y, c * w.z⟩ = |c| * Vec3.mag w := by
  unfold Vec3.mag
  rw [show c * w.x * (c * w.x) + c * w.y * (c * w.y) + c * w.z * (c * w.z)
        = (c * c) * (w.x * w.x + w.y * w.y + w.z * w.z) by ring,
      Real.sqrt_mul (mul_self_nonneg c), Real.sqrt_mul_self_eq_abs]

theorem computeThrustAccel_eq (v : Vec3) (m thrust_mN : ℝ) (dir : ℤ)
    (h1 : 1e-10 ≤ thrust_mN) (h2 : 1e-10 ≤ m) (h3 : 1e-10 ≤ Vec3.mag v) :
    computeThrustAccel v m thrust_mN dir =
      ⟨(dir : ℝ) * (thrust_mN * 1e-6 / m) / Vec3.mag v * v.x,
       (dir : ℝ) * (thrust_mN * 1e-6 / m) / Vec3.mag v * v.y,
       (dir : ℝ) * (thrust_mN * 1e-6 / m) / Vec3.mag v * v.z⟩ := by
  unfold computeThrustAccel
  rw [if_neg (by push_neg; constructor <;> linarith)]
  dsimp only
  rw [if_neg (by rw [show Real.sqrt (v.x * v.x + v.y * v.y + v.z * v.z)
        = Vec3.mag v from rfl]; linarith)]
  rfl

/-- C9: computeGravityAccel returns the zero vector when |r| < 1e-10 and
otherwise −μ·r/|r|³ componentwise; computeThrustAccel returns the zero
vector when thrust < 1e-10, mass < 1e-10 or |v| < 1e-10 and otherwise a
vector along dir · v/|v| whose magnitude is (thrust·1e-6)/m for dir = ±1;
computeAcceleration is their plain componentwise sum, a total function of
the state. -/
theorem computeAcceleration_guards (r v : Vec3) (m thrust_mN mu : ℝ) (dir : ℤ)
    (s : MissionState) :
    (Vec3.mag r < 1e-10 → computeGravityAccel r mu = Vec3.zero)
    ∧ (1e-10 ≤ Vec3.mag r → computeGravityAccel r mu =
        ⟨-mu / (Vec3.mag r * Vec3.mag r * Vec3.mag r) * r.x,
         -mu / (Vec3.mag r * Vec3.mag r * Vec3.mag r) * r.y,
         -mu / (Vec3.mag r * Vec3.mag r * Vec3.mag r) * r.z⟩)
    ∧ (thrust_mN < 1e-10 ∨ m < 1e-10 ∨ Vec3.mag v < 1e-10 →
        computeThrustAccel v m thrust_mN dir = Vec3.zero)
    ∧ (1e-10 ≤ thrust_mN → 1e-10 ≤ m → 1e-10 ≤ Vec3.mag v →
        computeThrustAccel v m thrust_mN dir =
          ⟨(dir : ℝ) * (thrust_mN * 1e-6 / m) / Vec3.mag v * v.x,
           (dir : ℝ) * (thrust_mN * 1e-6 / m) / Vec3.mag v * v.y,
           (dir : ℝ) * (thrust_mN * 1e-6 / m) / Vec3.mag v * v.z⟩
        ∧ ((dir = 1 ∨ dir = -1) →
            Vec3.mag (computeThrustAccel v m thrust_mN dir) = thrust_mN * 1e-6 / m))
    ∧ computeAcceleration s thrust_mN mu dir =
        ⟨(computeGravityAccel s.r mu).x + (computeThrustAccel s.v s.m thrust_mN dir).x,
         (computeGravityAccel s.r mu).y + (computeThrustAccel s.v s.m thrust_mN dir).y,
         (computeGravityAccel s.r mu).z + (computeThrustAccel s.v s.m thrust_mN dir).z⟩ := by
  have hmagr : Real.sqrt (r.x * r.x + r.y * r.y + r.z * r.z) = Vec3.mag r := rfl
  refine ⟨?_, ?_, ?_, fun h1 h2 h3 => ⟨computeThrustAccel_eq v m thrust_mN dir h1 h2 h3, ?_⟩, rfl⟩
  · intro h
    unfold computeGravityAccel
    rw [hmagr, if_pos h]
    rfl
  · intro h
    unfold computeGravityAccel
    rw [hmagr, if_neg (not_lt.mpr h)]
  · intro h
    unfold computeThrustAccel
    rcases h with h | h | h
    · rw [if_pos (Or.inl h)]; rfl
    · rw [if_pos (Or.inr h)]; rfl
    · by_cases hd : thrust_mN < 1e-10 ∨ m < 1e-10
      · rw [if_pos hd]; rfl
      · rw [if_neg hd]
        dsimp only
        rw [if_pos]
        · rfl
        · rw [show Real.sqrt (v.x * v.x + v.y * v.y + v.z * v.z)
              = Vec3.mag v from rfl]
          exact h
  · intro hd
    rw [computeThrustAccel_eq v m thrust_mN dir h1 h2 h3, Vec3_mag_scale]
    have hv : (0 : ℝ) < Vec3.mag v := by linarith
    have ha : (0 : ℝ) < thrust_mN * 1e-6 / m := by positivity
    have habs : |(dir : ℝ) * (thrust_mN * 1e-6 / m) / Vec3.mag v|
        = thrust_mN * 1e-6 / m / Vec3.mag v := by
      rcases hd with hd | hd <;> subst hd <;>
        simp [abs_div, abs_of_pos ha, abs_of_pos hv]
    rw [habs]
    field_simp
    ring

/-! ## C6: the Kepler solver's circular-orbit shortcut -/

/-- Counterexample to C6 as stated: at M = −1 the solver first normalizes M
into [0, 2π) with the source's two-π literal, so it returns −1 + 2π, not
−1. -/
theorem solveKepler_negative_M_cex :
    solveKeplersEquation (-1) 0 1e-12 20 = -1 + 2 * PI_C
    ∧ solveKeplersEquation (-1) 0 1e-12 20 ≠ -1 := by
  have hpi : (0 : ℝ) < 2 * PI_C := by norm_num [PI_C]
  have hx : (-1 : ℝ) / (2 * PI_C) < 0 := div_neg_of_neg_of_pos (by norm_num) hpi
  have hceil : ⌈(-1 : ℝ) / (2 * PI_C)⌉ = 0 := by
    rw [Int.ceil_eq_iff]
    constructor
    · push_cast
      rw [zero_sub, neg_div, neg_lt_neg_iff, div_lt_one hpi]
      norm_num [PI_C]
    · exact_mod_cast hx.le
  have hval : solveKeplersEquation (-1) 0 1e-12 20 = -1 + 2 * PI_C := by
    unfold solveKeplersEquation cFmod cTrunc
    rw [if_pos hx, hceil]
    norm_num
  refine ⟨hval, ?_⟩
  rw [hval]
  intro hh
  have : 2 * PI_C = 0 := by linarith
  norm_num [PI_C] at this

/-- C6 (amended): for e = 0 the solver returns M exactly for every mean
anomaly M already in [0, 2π) (with the source's two-π literal); a mean
anomaly outside that interval is first reduced into it, as the
counterexample at M = −1 shows. -/
theorem solveKepler_zero_ecc (M tolerance : ℝ) (max_iterations : ℕ)
    (h0 : 0 ≤ M) (h1 : M < 2 * PI_C) :
    solveKeplersEquation M 0 tolerance max_iterations = M := by
  have hpi : (0 : ℝ) < 2 * PI_C := by norm_num [PI_C]
  have hx : ¬ M / (2 * PI_C) < 0 := not_lt.mpr (div_nonneg h0 hpi.le)
  have hfloor : ⌊M / (2 * PI_C)⌋ = 0 := by
    rw [Int.floor_eq_zero_iff, Set.mem_Ico]
    exact ⟨div_nonneg h0 hpi.le, (div_lt_one hpi).mpr h1⟩
  simp only [solveKeplersEquation, cFmod, cTrunc]
  rw [if_neg hx, hfloor]
  push_cast
  rw [mul_zero, sub_zero, if_neg (not_lt.mpr h0),
    if_pos (show (0 : ℝ) < 1e-10 by norm_num)]

/-- Witness for the amended C6 at M = 1. -/
theorem solveKepler_zero_ecc_witness :
    (0 : ℝ) ≤ 1 ∧ (1 : ℝ) < 2 * PI_C ∧ solveKeplersEquation 1 0 1e-12 20 = 1 :=
  ⟨by norm_num, by norm_num [PI_C],
    solveKepler_zero_ecc 1 1e-12 20 (by norm_num) (by norm_num [PI_C])⟩

/-! ## C7: fixed points of the eccentric-to-true-anomaly conversion -/

/-- Counterexample to C7 as stated: for the eccentricity e = 2 the
invalid-eccentricity guard returns 0, so eccentricToTrueAnomaly(π, 2) is 0
and not π. -/
theorem eccentricToTrue_pi_cex :
    eccentricToTrueAnomaly Real.pi 2 = 0 ∧ eccentricToTrueAnomaly Real.pi 2 ≠ Real.pi := by
  have h : eccentricToTrueAnomaly Real.pi 2 = 0 := by
    unfold eccentricToTrueAnomaly
    rw [if_pos (Or.inr (by norm_num))]
  exact ⟨h, by rw [h]; exact fun hh => Real.pi_ne_zero hh.symm⟩

/-- C7 (amended): eccentricToTrueAnomaly(0, e) = 0 for every eccentricity;
eccentricToTrueAnomaly(π, e) = π for every 0 ≤ e < 1e-10 (the circular
shortcut; for e outside [0, 1] the invalid-eccentricity guard returns 0
instead, as the counterexample shows); and for e = 0 it is the identity,
eccentricToTrueAnomaly(E, 0) = E for every E. -/
theorem eccentricToTrueAnomaly_fixed_points (E e e' : ℝ)
    (h0 : 0 ≤ e') (h1 : e' < 1e-10) :
    eccentricToTrueAnomaly 0 e = 0
    ∧ eccentricToTrueAnomaly Real.pi e' = Real.pi
    ∧ eccentricToTrueAnomaly E 0 = E := by
  refine ⟨?_, ?_, ?_⟩
  · unfold eccentricToTrueAnomaly
    by_cases hg : e < 0 ∨ e > 1
    · rw [if_pos hg]
    · rw [if_neg hg]
      by_cases hc : e < 1e-10
      · rw [if_pos hc]
      · rw [if_neg hc]
        norm_num [Real.tan_zero, Real.arctan_zero]
  · unfold eccentricToTrueAnomaly
    rw [if_neg (by push_neg; exact ⟨h0, by linarith⟩), if_pos h1]
  · unfold eccentricToTrueAnomaly
    rw [if_neg (by norm_num), if_pos (by norm_num)]

/-- Witness for the amended C7 at E = 5, e = 2, e' = 0. -/
theorem eccentricToTrueAnomaly_fixed_points_witness :
    (0 : ℝ) ≤ 0 ∧ (0 : ℝ) < 1e-10 ∧ eccentricToTrueAnomaly Real.pi 0 = Real.pi :=
  ⟨le_refl 0, by norm_num,
    (eccentricToTrueAnomaly_fixed_points 5 2 0 (le_refl 0) (by norm_num)).2.1⟩

/-! ## C8: the eccentricity computation and its clamp -/

theorem computeOrbitalElements_e_def (r v : Vec3) (mu : ℝ) :
    (computeOrbitalElements r v mu).e =
      if (computeOrbitalElements r v mu).a > 0 then
        Real.sqrt
          (if 1 - (computeOrbitalElements r v mu).h * (computeOrbitalElements r v mu).h
                / (mu * (computeOrbitalElements r v mu).a) < 0 then 0
           else 1 - (computeOrbitalElements r v mu).h * (computeOrbitalElements r v mu).h
                / (mu * (computeOrbitalElements r v mu).a))
      else 2 := rfl

/-- C8: in computeOrbitalElements, a ≤ 0 forces the hyperbolic sentinel
e = 2 and a > 0 gives e = √(max(0, 1 − h²/(μ·a))), the squared eccentricity
being clamped at 0 before the square root; either way the returned
eccentricity is non-negative for every input state. -/
theorem computeOrbitalElements_ecc (r v : Vec3) (mu : ℝ) :
    ((computeOrbitalElements r v mu).a ≤ 0 → (computeOrbitalElements r v mu).e = 2)
    ∧ (0 < (computeOrbitalElements r v mu).a →
        (computeOrbitalElements r v mu).e =
          Real.sqrt (max 0 (1 - (computeOrbitalElements r v mu).h
            * (computeOrbitalElements r v mu).h / (mu * (computeOrbitalElements r v mu).a))))
    ∧ 0 ≤ (computeOrbitalElements r v mu).e := by
  refine ⟨?_, ?_, ?_⟩
  · intro h
    rw [computeOrbitalElements_e_def, if_neg (not_lt.mpr h)]
  · intro h
    rw [computeOrbitalElements_e_def, if_pos h]
    congr 1
    rcases lt_or_le (1 - (computeOrbitalElements r v mu).h * (computeOrbitalElements r v mu).h
        / (mu * (computeOrbitalElements r v mu).a)) 0 with hx | hx
    · rw [if_pos hx, max_eq_left hx.le]
    · rw [if_neg (not_lt.mpr hx), max_eq_right hx]
  · rw [computeOrbitalElements_e_def]
    split
    · exact Real.sqrt_nonneg _
    · norm_num

/-! ## Trace lemmas for the propagation loop -/

theorem integratorStep_t (config : MissionConfig) (s : MissionState) :
    (integratorStep config s).t = s.t + config.timestep_s := by
  unfold integratorStep
  split <;> rfl

theorem traceLS_coast_step (config : MissionConfig) (r_departure : ℝ) (n : ℕ) :
    (traceLS config r_departure n).coast_step = -1 := by
  induction n with
  | zero => rfl
  | succ n ih => rw [traceLS, advance]; exact ih

theorem traceLS_step (config : MissionConfig) (r_departure : ℝ) (n : ℕ) :
    (traceLS config r_departure n).step = (n : ℤ) := by
  induction n with
  | zero => rfl
  | succ n ih => rw [traceLS, advance]; push_cast; rw [ih]

theorem traceLS_t (config : MissionConfig) (r_departure : ℝ) (n : ℕ) :
    (traceLS config r_departure n).state.t = n * config.timestep_s := by
  induction n with
  | zero => simp [traceLS, initialMissionState]
  | succ n ih =>
    rw [traceLS, advance]
    dsimp only
    rw [integratorStep_t, ih]
    push_cast
    ring

theorem traceLS_history (config : MissionConfig) (r_departure : ℝ) (n : ℕ) :
    (traceLS config r_departure n).history =
      (List.range n).map (fun k => (traceLS config r_departure k).state) := by
  induction n with
  | zero => rfl
  | succ n ih =>
    rw [traceLS, advance]
    dsimp only
    rw [ih, List.range_succ, List.map_append]
    rfl

theorem propLoop_cont (config : MissionConfig) (r_arrival : ℝ) (f : ℕ) (ls : LoopState)
    (hcs : ls.coast_step = -1)
    (ht : ls.state.t < config.max_flight_time_s)
    (hco : ¬ coastCond config r_arrival ls.state)
    (hm : ¬ ls.state.m < 100) :
    propLoop config r_arrival (f + 1) ls = propLoop config r_arrival f (advance config ls) := by
  rw [propLoop, if_pos ht]
  unfold loopIter
  dsimp only
  have h1 : ¬((computeOrbitalElements ls.state.r ls.state.v MU_SUN).r_a
      ≥ config.coast_threshold * r_arrival ∧ ls.coast_step < 0) :=
    fun hc => hco hc.1
  rw [if_neg h1]
  have h2 : ¬(ls.coast_step ≥ 0) := by rw [hcs]; norm_num
  rw [if_neg h2, if_neg hm]
  unfold advance
  rfl

theorem propLoop_coast_break (config : MissionConfig) (r_arrival : ℝ) (f : ℕ)
    (ls : LoopState)
    (hstep : 0 ≤ ls.step)
    (hcs : ls.coast_step = -1)
    (ht : ls.state.t < config.max_flight_time_s)
    (hco : coastCond config r_arrival ls.state) :
    propLoop config r_arrival (f + 1) ls =
      ⟨ls.state, ls.total_delta_v, ls.step, ls.history ++ [ls.state]⟩ := by
  rw [propLoop, if_pos ht]
  unfold loopIter
  dsimp only
  have hlt : ls.coast_step < 0 := by rw [hcs]; norm_num
  have hco2 : (computeOrbitalElements ls.state.r ls.state.v MU_SUN).r_a
      ≥ config.coast_threshold * r_arrival := hco
  have hcomb : (computeOrbitalElements ls.state.r ls.state.v MU_SUN).r_a
      ≥ config.coast_threshold * r_arrival ∧ ls.coast_step < 0 := ⟨hco2, hlt⟩
  rw [if_pos hcomb]
  have h2 : ls.step ≥ 0 := hstep
  rw [if_pos h2]

theorem propLoop_fuel_break (config : MissionConfig) (r_arrival : ℝ) (f : ℕ)
    (ls : LoopState)
    (hcs : ls.coast_step = -1)
    (ht : ls.state.t < config.max_flight_time_s)
    (hco : ¬ coastCond config r_arrival ls.state)
    (hm : ls.state.m < 100) :
    propLoop config r_arrival (f + 1) ls =
      ⟨ls.state, ls.total_delta_v, -1, ls.history ++ [ls.state]⟩ := by
  rw [propLoop, if_pos ht]
  unfold loopIter
  dsimp only
  have h1 : ¬((computeOrbitalElements ls.state.r ls.state.v MU_SUN).r_a
      ≥ config.coast_threshold * r_arrival ∧ ls.coast_step < 0) :=
    fun hc => hco hc.1
  rw [if_neg h1]
  have h2 : ¬(ls.coast_step ≥ 0) := by rw [hcs]; norm_num
  rw [if_neg h2, if_pos hm, hcs]

theorem propLoop_timeout (config : MissionConfig) (r_arrival : ℝ) (f : ℕ)
    (ls : LoopState)
    (ht : ¬ ls.state.t < config.max_flight_time_s) :
    propLoop config r_arrival f ls = ⟨MissionState.mkDefault, 0, -1, ls.history⟩ := by
  cases f with
  | zero => rfl
  | succ f => rw [propLoop, if_neg ht]

theorem propLoop_to_trace (config : MissionConfig) (r_departure r_arrival : ℝ)
    (n f : ℕ) (hn : n ≤ f)
    (hrun : runsFreelyTo config r_departure r_arrival n) :
    propLoop config r_arrival f (traceLS config r_departure 0) =
      propLoop config r_arrival (f - n) (traceLS config r_departure n) := by
  induction n with
  | zero => rfl
  | succ n ih =>
    have hrunn : runsFreelyTo config r_departure r_arrival n :=
      fun k hk => hrun k (Nat.lt_succ_of_lt hk)
    rw [ih (Nat.le_of_succ_le hn) hrunn]
    obtain ⟨ht, hco, hm⟩ := hrun n (Nat.lt_succ_self n)
    have hfn : f - n = (f - (n + 1)) + 1 := by omega
    rw [hfn, propLoop_cont config r_arrival (f - (n + 1)) _
      (traceLS_coast_step config r_departure n) ht hco hm]
    rfl

theorem fuel_bound (config : MissionConfig) (n : ℕ) (hdt : 0 < config.timestep_s)
    (ht : (n : ℝ) * config.timestep_s < config.max_flight_time_s) :
    n < propagateFuel config := by
  have h1 : (n : ℝ) < config.max_flight_time_s / config.timestep_s :=
    (lt_div_iff₀ hdt).mpr ht
  have h2 : n < ⌈config.max_flight_time_s / config.timestep_s⌉₊ := Nat.lt_ceil.mpr h1
  unfold propagateFuel
  omega

/-! ## C1: termination selection of the propagation loop -/

/-- C1: for a positive timestep, if the apoapsis computed from the current
state first reaches coast_threshold · r_arrival at step n (with the mass
still at or above 100 kg before then and the elapsed time still below
max_flight_time_s), the loop breaks there with coast_step = n ≥ 0 and the
elements recomputed from the returned final state still satisfy
r_a ≥ coast_threshold · r_arrival; if instead the mass first drops below
100 kg at step n, the loop breaks there with coast_step = −1 and a final
mass below 100 kg. -/
theorem propagateMission_termination (config : MissionConfig)
    (r_departure r_arrival : ℝ) (n : ℕ) (hdt : 0 < config.timestep_s) :
    (coastFiresAt config r_departure r_arrival n →
      (propagateMission config r_departure r_arrival).coast_step = (n : ℤ)
      ∧ 0 ≤ (propagateMission config r_departure r_arrival).coast_step
      ∧ (computeOrbitalElements
            (propagateMission config r_departure r_arrival).final_state.r
            (propagateMission config r_departure r_arrival).final_state.v MU_SUN).r_a
          ≥ config.coast_threshold * r_arrival)
    ∧ (fuelFiresAt config r_departure r_arrival n →
      (propagateMission config r_departure r_arrival).coast_step = -1
      ∧ (propagateMission config r_departure r_arrival).final_state.m < 100) := by
  have hstart : propagateMission config r_departure r_arrival
      = propLoop config r_arrival (propagateFuel config) (traceLS config r_departure 0) := rfl
  constructor
  · rintro ⟨hrun, ht, hco⟩
    have htn : (n : ℝ) * config.timestep_s < config.max_flight_time_s := by
      rw [← traceLS_t config r_departure n]
      exact ht
    have hn : n < propagateFuel config := fuel_bound config n hdt htn
    obtain ⟨m, hm2⟩ : ∃ m, propagateFuel config - n = m + 1 :=
      ⟨propagateFuel config - n - 1, by omega⟩
    rw [hstart, propLoop_to_trace config r_departure r_arrival n _ hn.le hrun, hm2,
      propLoop_coast_break config r_arrival m _
        (by rw [traceLS_step]; exact Int.natCast_nonneg n)
        (traceLS_coast_step config r_departure n) ht hco]
    refine ⟨?_, ?_, ?_⟩
    · exact traceLS_step config r_departure n
    · rw [show (⟨(traceLS config r_departure n).state,
          (traceLS config r_departure n).total_delta_v,
          (traceLS config r_departure n).step,
          (traceLS config r_departure n).history ++ [(traceLS config r_departure n).state]⟩
            : PropagationResult).coast_step
          = (traceLS config r_departure n).step from rfl, traceLS_step]
      exact Int.natCast_nonneg n
    · exact hco
  · rintro ⟨hrun, ht, hco, hm⟩
    have htn : (n : ℝ) * config.timestep_s < config.max_flight_time_s := by
      rw [← traceLS_t config r_departure n]
      exact ht
    have hn : n < propagateFuel config := fuel_bound config n hdt htn
    obtain ⟨m, hm2⟩ : ∃ m, propagateFuel config - n = m + 1 :=
      ⟨propagateFuel config - n - 1, by omega⟩
    rw [hstart, propLoop_to_trace config r_departure r_arrival n _ hn.le hrun, hm2,
      propLoop_fuel_break config r_arrival m _
        (traceLS_coast_step config r_departure n) ht hco hm]
    exact ⟨rfl, hm⟩

/-! ## C3: the time-exceeded fallthrough discards the propagated state -/

/-- C3: when the while loop exits because the elapsed time reaches
max_flight_time_s without either break ever firing, the returned
PropagationResult keeps its default-constructed final_state (zero position
and velocity, mass 0, time 0), total_delta_v = 0 and coast_step = −1, while
the trajectory history still holds every state recorded before the exit. -/
theorem propagateMission_time_exceeded (config : MissionConfig)
    (r_departure r_arrival : ℝ) (n : ℕ)
    (h : timeExceededAt config r_departure r_arrival n) :
    propagateMission config r_departure r_arrival =
      ⟨MissionState.mkDefault, 0, -1,
        (List.range n).map (fun k => (traceLS config r_departure k).state)⟩ := by
  obtain ⟨hrun, ht⟩ := h
  have hn : n ≤ propagateFuel config := by
    cases n with
    | zero => exact Nat.zero_le _
    | succ k =>
      obtain ⟨htk, -, -⟩ := hrun k (Nat.lt_succ_self k)
      rw [traceLS_t] at htk ht
      push_neg at ht
      have hdt : 0 < config.timestep_s := by
        push_cast at htk ht
        nlinarith
      have h2 : (k : ℝ) < config.max_flight_time_s / config.timestep_s :=
        (lt_div_iff₀ hdt).mpr htk
      have h3 : k < ⌈config.max_flight_time_s / config.timestep_s⌉₊ := Nat.lt_ceil.mpr h2
      unfold propagateFuel
      omega
  have hstart : propagateMission config r_departure r_arrival
      = propLoop config r_arrival (propagateFuel config) (traceLS config r_departure 0) := rfl
  rw [hstart, propLoop_to_trace config r_departure r_arrival n _ hn hrun,
    propLoop_timeout config r_arrival _ _ ht, traceLS_history]

/-! ## Evaluation of the element extractor on a circular witness state -/

theorem computeOrbitalElements_h_def (r v : Vec3) (mu : ℝ) :
    (computeOrbitalElements r v mu).h =
      Real.sqrt ((r.y * v.z - r.z * v.y) * (r.y * v.z - r.z * v.y)
        + (r.z * v.x - r.x * v.z) * (r.z * v.x - r.x * v.z)
        + (r.x * v.y - r.y * v.x) * (r.x * v.y - r.y * v.x)) := rfl

theorem computeOrbitalElements_Esp_def (r v : Vec3) (mu : ℝ) :
    (computeOrbitalElements r v mu).Esp =
      (v.x * v.x + v.y * v.y + v.z * v.z) / 2
        - mu / Real.sqrt (r.x * r.x + r.y * r.y + r.z * r.z) := rfl

theorem computeOrbitalElements_a_def (r v : Vec3) (mu : ℝ) :
    (computeOrbitalElements r v mu).a =
      if |(computeOrbitalElements r v mu).Esp| > 1e-15 then
        -mu / (2 * (computeOrbitalElements r v mu).Esp)
      else 1e10 := rfl

theorem computeOrbitalElements_r_a_def (r v : Vec3) (mu : ℝ) :
    (computeOrbitalElements r v mu).r_a =
      (computeOrbitalElements r v mu).a * (1 + (computeOrbitalElements r v mu).e) := rfl

theorem elements_circular_MU_r_a :
    (computeOrbitalElements ⟨MU_SUN, 0, 0⟩ ⟨0, 1, 0⟩ MU_SUN).r_a = MU_SUN := by
  have hmu : (0 : ℝ) < MU_SUN := by norm_num [MU_SUN]
  have hh : (computeOrbitalElements ⟨MU_SUN, 0, 0⟩ ⟨0, 1, 0⟩ MU_SUN).h = MU_SUN := by
    rw [computeOrbitalElements_h_def]
    dsimp only
    rw [show ((0 : ℝ) * 0 - 0 * 1) * (0 * 0 - 0 * 1)
        + (0 * 0 - MU_SUN * 0) * (0 * 0 - MU_SUN * 0)
        + (MU_SUN * 1 - 0 * 0) * (MU_SUN * 1 - 0 * 0) = MU_SUN * MU_SUN by ring]
    exact Real.sqrt_mul_self hmu.le
  have hEsp : (computeOrbitalElements ⟨MU_SUN, 0, 0⟩ ⟨0, 1, 0⟩ MU_SUN).Esp = -(1 / 2) := by
    rw [computeOrbitalElements_Esp_def]
    dsimp only
    rw [show MU_SUN * MU_SUN + (0 : ℝ) * 0 + 0 * 0 = MU_SUN * MU_SUN by ring,
      Real.sqrt_mul_self hmu.le, div_self hmu.ne']
    norm_num
  have habs : |(-(1 / 2) : ℝ)| = 1 / 2 := by
    rw [abs_neg, abs_of_pos (by norm_num : (0 : ℝ) < 1 / 2)]
  have ha : (computeOrbitalElements ⟨MU_SUN, 0, 0⟩ ⟨0, 1, 0⟩ MU_SUN).a = MU_SUN := by
    rw [computeOrbitalElements_a_def, hEsp, if_pos (by rw [habs]; norm_num)]
    norm_num
  have he : (computeOrbitalElements ⟨MU_SUN, 0, 0⟩ ⟨0, 1, 0⟩ MU_SUN).e = 0 := by
    rw [computeOrbitalElements_e_def, ha, hh, if_pos hmu,
      div_self (by positivity : MU_SUN * MU_SUN ≠ 0)]
    norm_num
  rw [computeOrbitalElements_r_a_def, ha, he]
  ring

theorem witness_initial_state :
    initialMissionState ⟨⟨0, 1, 50⟩, "euler", 1, 10, 1⟩ MU_SUN =
      ⟨⟨MU_SUN, 0, 0⟩, ⟨0, 1, 0⟩, 50, 0⟩ := by
  have hmu : (0 : ℝ) < MU_SUN := by norm_num [MU_SUN]
  unfold initialMissionState
  rw [div_self hmu.ne', Real.sqrt_one]

theorem witness_fuelFires :
    fuelFiresAt ⟨⟨0, 1, 50⟩, "euler", 1, 10, 1⟩ MU_SUN (2 * MU_SUN) 0 := by
  have hmu : (0 : ℝ) < MU_SUN := by norm_num [MU_SUN]
  have hstate : (traceLS ⟨⟨0, 1, 50⟩, "euler", 1, 10, 1⟩ MU_SUN 0).state =
      ⟨⟨MU_SUN, 0, 0⟩, ⟨0, 1, 0⟩, 50, 0⟩ := witness_initial_state
  refine ⟨fun k hk => absurd hk (Nat.not_lt_zero k), ?_, ?_, ?_⟩
  · rw [hstate]
    norm_num
  · intro hcon
    unfold coastCond at hcon
    rw [hstate,
      show (MissionState.mk ⟨MU_SUN, 0, 0⟩ ⟨0, 1, 0⟩ 50 0).r = ⟨MU_SUN, 0, 0⟩ from rfl,
      show (MissionState.mk ⟨MU_SUN, 0, 0⟩ ⟨0, 1, 0⟩ 50 0).v = ⟨0, 1, 0⟩ from rfl,
      elements_circular_MU_r_a,
      show (⟨⟨0, 1, 50⟩, "euler", 1, 10, 1⟩ : MissionConfig).coast_threshold = 1 from rfl,
      one_mul] at hcon
    linarith
  · rw [hstate]
    norm_num

/-- Witness for C1: a 50 kg mission (below the 100 kg floor from the start)
on a circular orbit never reaching the coast threshold stops at step 0 with
coast_step = −1 and final mass below 100 kg. -/
theorem propagateMission_termination_witness :
    (0 : ℝ) < 1
    ∧ fuelFiresAt ⟨⟨0, 1, 50⟩, "euler", 1, 10, 1⟩ MU_SUN (2 * MU_SUN) 0
    ∧ (propagateMission ⟨⟨0, 1, 50⟩, "euler", 1, 10, 1⟩ MU_SUN (2 * MU_SUN)).coast_step = -1
    ∧ (propagateMission ⟨⟨0, 1, 50⟩, "euler", 1, 10, 1⟩ MU_SUN (2 * MU_SUN)).final_state.m < 100 :=
  ⟨by norm_num, witness_fuelFires,
    (propagateMission_termination ⟨⟨0, 1, 50⟩, "euler", 1, 10, 1⟩ MU_SUN (2 * MU_SUN) 0
      (by norm_num)).2 witness_fuelFires⟩

/-- Witness for C3: with max_flight_time_s = 0 the while loop exits at once
and the returned result is the default-constructed one with an empty
history. -/
theorem propagateMission_time_exceeded_witness :
    timeExceededAt ⟨⟨0, 1, 50⟩, "euler", 1, 0, 1⟩ MU_SUN (2 * MU_SUN) 0
    ∧ propagateMission ⟨⟨0, 1, 50⟩, "euler", 1, 0, 1⟩ MU_SUN (2 * MU_SUN) =
        ⟨MissionState.mkDefault, 0, -1, []⟩ := by
  have hte : timeExceededAt ⟨⟨0, 1, 50⟩, "euler", 1, 0, 1⟩ MU_SUN (2 * MU_SUN) 0 := by
    refine ⟨fun k hk => absurd hk (Nat.not_lt_zero k), ?_⟩
    show ¬ (initialMissionState ⟨⟨0, 1, 50⟩, "euler", 1, 0, 1⟩ MU_SUN).t < 0
    unfold initialMissionState
    norm_num
  have h := propagateMission_time_exceeded ⟨⟨0, 1, 50⟩, "euler", 1, 0, 1⟩ MU_SUN
    (2 * MU_SUN) 0 hte
  exact ⟨hte, by rw [h]; rfl⟩

/-! ## C2: the two batch-runner variants at fuel depletion -/

theorem batchLoopA_cont (config : MissionConfig) (r_arr : ℝ) (res0 : MissionResult)
    (f : ℕ) (s : MissionState) (step : ℤ) (tdv : ℝ)
    (ht : s.t < config.max_flight_time_s)
    (hco : ¬ coastCond config r_arr s)
    (hm : ¬ s.m < 100) :
    batchLoopA config r_arr res0 (f + 1) s step tdv =
      batchLoopA config r_arr res0 f (integratorStep config s) (step + 1)
        (deltaVUpdate config s.m tdv) := by
  rw [batchLoopA, if_pos ht]
  dsimp only
  have hco2 : ¬ (computeOrbitalElements s.r s.v MU_SUN).r_a
      ≥ config.coast_threshold * r_arr := hco
  rw [if_neg hco2, if_neg hm]

theorem batchLoopA_fuel_break (config : MissionConfig) (r_arr : ℝ) (res0 : MissionResult)
    (f : ℕ) (s : MissionState) (step : ℤ) (tdv : ℝ)
    (ht : s.t < config.max_flight_time_s)
    (hco : ¬ coastCond config r_arr s)
    (hm : s.m < 100) :
    batchLoopA config r_arr res0 (f + 1) s step tdv =
      { res0 with
        flight_time_days := s.t / 86400
        total_delta_v_km_s := tdv
        final_mass_kg := s.m
        propellant_consumed_kg := config.spacecraft.initial_mass_kg - s.m
        final_apoapsis_km := 0 } := by
  rw [batchLoopA, if_pos ht]
  dsimp only
  have hco2 : ¬ (computeOrbitalElements s.r s.v MU_SUN).r_a
      ≥ config.coast_threshold * r_arr := hco
  rw [if_neg hco2, if_pos hm]

theorem batchLoopA_to_trace (config : MissionConfig) (r_departure r_arrival : ℝ)
    (res0 : MissionResult) (n f : ℕ) (hn : n ≤ f)
    (hrun : runsFreelyTo config r_departure r_arrival n) :
    batchLoopA config r_arrival res0 f (initialMissionState config r_departure) 0 0 =
      batchLoopA config r_arrival res0 (f - n) (traceLS config r_departure n).state
        (traceLS config r_departure n).step
        (traceLS config r_departure n).total_delta_v := by
  induction n with
  | zero => rfl
  | succ n ih =>
    have hrunn : runsFreelyTo config r_departure r_arrival n :=
      fun k hk => hrun k (Nat.lt_succ_of_lt hk)
    rw [ih (Nat.le_of_succ_le hn) hrunn]
    obtain ⟨ht, hco, hm⟩ := hrun n (Nat.lt_succ_self n)
    have hfn : f - n = (f - (n + 1)) + 1 := by omega
    rw [hfn, batchLoopA_cont config r_arrival res0 (f - (n + 1)) _ _ _ ht hco hm]
    rfl

/-- C2: when the loop terminates by fuel depletion at step n, the
self-contained batch-runner variant reports final_apoapsis_km = 0 while the
variant that delegates to the shared engine and recomputes elements from
the returned final state reports the actually computed apoapsis; both take
flight time, total delta-V, final mass and propellant consumed from the
state at the terminating step. -/
theorem batchPropagate_fuel_depletion (config : MissionConfig)
    (r_departure r_arrival : ℝ) (n : ℕ) (hdt : 0 < config.timestep_s)
    (hf : fuelFiresAt config r_departure r_arrival n) :
    (batchPropagateA config r_departure r_arrival).final_apoapsis_km = 0
    ∧ (batchPropagateA config r_departure r_arrival).flight_time_days =
        (traceLS config r_departure n).state.t / 86400
    ∧ (batchPropagateA config r_departure r_arrival).total_delta_v_km_s =
        (traceLS config r_departure n).total_delta_v
    ∧ (batchPropagateA config r_departure r_arrival).final_mass_kg =
        (traceLS config r_departure n).state.m
    ∧ (batchPropagateA config r_departure r_arrival).propellant_consumed_kg =
        config.spacecraft.initial_mass_kg - (traceLS config r_departure n).state.m
    ∧ (batchPropagateB config r_departure r_arrival).final_apoapsis_km =
        (computeOrbitalElements (traceLS config r_departure n).state.r
          (traceLS config r_departure n).state.v MU_SUN).r_a
    ∧ (batchPropagateB config r_departure r_arrival).flight_time_days =
        (traceLS config r_departure n).state.t / 86400
    ∧ (batchPropagateB config r_departure r_arrival).total_delta_v_km_s =
        (traceLS config r_departure n).total_delta_v
    ∧ (batchPropagateB config r_departure r_arrival).final_mass_kg =
        (traceLS config r_departure n).state.m
    ∧ (batchPropagateB config r_departure r_arrival).propellant_consumed_kg =
        config.spacecraft.initial_mass_kg - (traceLS config r_departure n).state.m := by
  obtain ⟨hrun, ht, hco, hm⟩ := hf
  have htn : (n : ℝ) * config.timestep_s < config.max_flight_time_s := by
    rw [← traceLS_t config r_departure n]
    exact ht
  have hn : n < propagateFuel config := fuel_bound config n hdt htn
  obtain ⟨m, hm2⟩ : ∃ m, propagateFuel config - n = m + 1 :=
    ⟨propagateFuel config - n - 1, by omega⟩
  have hA : batchPropagateA config r_departure r_arrival =
      { MissionResult.mkDefault with
        initial_mass_kg := config.spacecraft.initial_mass_kg
        flight_time_days := (traceLS config r_departure n).state.t / 86400
        total_delta_v_km_s := (traceLS config r_departure n).total_delta_v
        final_mass_kg := (traceLS config r_departure n).state.m
        propellant_consumed_kg :=
          config.spacecraft.initial_mass_kg - (traceLS config r_departure n).state.m
        final_apoapsis_km := 0 } := by
    unfold batchPropagateA
    rw [batchLoopA_to_trace config r_departure r_arrival _ n _ hn.le hrun, hm2,
      batchLoopA_fuel_break config r_arrival _ m _ _ _ ht hco hm]
  have hprop : propagateMission config r_departure r_arrival =
      ⟨(traceLS config r_departure n).state,
       (traceLS config r_departure n).total_delta_v, -1,
       (traceLS config r_departure n).history ++ [(traceLS config r_departure n).state]⟩ := by
    have hstart : propagateMission config r_departure r_arrival
        = propLoop config r_arrival (propagateFuel config)
            (traceLS config r_departure 0) := rfl
    rw [hstart, propLoop_to_trace config r_departure r_arrival n _ hn.le hrun, hm2,
      propLoop_fuel_break config r_arrival m _
        (traceLS_coast_step config r_departure n) ht hco hm]
  have hB : batchPropagateB config r_departure r_arrival =
      { flight_time_days := (traceLS config r_departure n).state.t / 86400
        total_delta_v_km_s := (traceLS config r_departure n).total_delta_v
        propellant_consumed_kg :=
          config.spacecraft.initial_mass_kg - (traceLS config r_departure n).state.m
        final_mass_kg := (traceLS config r_departure n).state.m
        initial_mass_kg := config.spacecraft.initial_mass_kg
        final_apoapsis_km := (computeOrbitalElements (traceLS config r_departure n).state.r
          (traceLS config r_departure n).state.v MU_SUN).r_a
        final_periapsis_km := (computeOrbitalElements (traceLS config r_departure n).state.r
          (traceLS config r_departure n).state.v MU_SUN).r_p
        final_eccentricity := (computeOrbitalElements (traceLS config r_departure n).state.r
          (traceLS config r_departure n).state.v MU_SUN).e
        final_semi_major_axis_km := (computeOrbitalElements (traceLS config r_departure n).state.r
          (traceLS config r_departure n).state.v MU_SUN).a } := by
    unfold batchPropagateB
    rw [hprop]
  rw [hA, hB]
  exact ⟨rfl, rfl, rfl, rfl, rfl, rfl, rfl, rfl, rfl, rfl⟩

/-- Witness for C2 at the 50 kg circular mission: the self-contained variant
reports apoapsis 0, the delegating variant reports the recomputed apoapsis. -/
theorem batchPropagate_fuel_depletion_witness :
    (0 : ℝ) < 1
    ∧ fuelFiresAt ⟨⟨0, 1, 50⟩, "euler", 1, 10, 1⟩ MU_SUN (2 * MU_SUN) 0
    ∧ (batchPropagateA ⟨⟨0, 1, 50⟩, "euler", 1, 10, 1⟩ MU_SUN (2 * MU_SUN)).final_apoapsis_km = 0
    ∧ (batchPropagateB ⟨⟨0, 1, 50⟩, "euler", 1, 10, 1⟩ MU_SUN (2 * MU_SUN)).final_apoapsis_km =
        (computeOrbitalElements
          (traceLS ⟨⟨0, 1, 50⟩, "euler", 1, 10, 1⟩ MU_SUN 0).state.r
          (traceLS ⟨⟨0, 1, 50⟩, "euler", 1, 10, 1⟩ MU_SUN 0).state.v MU_SUN).r_a := by
  have h := batchPropagate_fuel_depletion ⟨⟨0, 1, 50⟩, "euler", 1, 10, 1⟩ MU_SUN
    (2 * MU_SUN) 0 (by norm_num) witness_fuelFires
  exact ⟨by norm_num, witness_fuelFires, h.1, h.2.2.2.2.2.1⟩

end LowThrust
